import Mathlib

/-!
Verification development for the RFP-estimator chatbot (`src/streamlit_app.py`).

The Python source is shallowly embedded: strings are `String`/`List Char`,
pandas frames of role rows are lists of a `LaborRole` structure, machine
integers are `Nat` (Python ints are exact), fallible Python code (calls that
can raise) returns `Option`/`Except`.  Streamlit/Snowflake/docx calls are
external collaborators; where a function's behaviour depends on such a call,
the call's result is an explicit parameter.
-/

/-! ## Generic character/string helpers (models of Python `str` primitives) -/

/-- Lowercase every character; models Python `str.lower()` / `re.IGNORECASE`
matching for the ASCII texts handled here.  Length-preserving, so indices in
the lowered list equal indices in the original. -/
def lowerL (s : List Char) : List Char := s.map Char.toLower

/-- `startsW needle hay`: `needle` is a prefix of `hay` (exact characters). -/
def startsW : List Char → List Char → Bool
  | [], _ => true
  | _ :: _, [] => false
  | n :: ns, h :: hs => n == h && startsW ns hs

/-- `containsSub needle hay`: `needle` occurs contiguously in `hay`; models
Python's `needle in hay` on strings. -/
def containsSub (needle : List Char) : List Char → Bool
  | [] => startsW needle []
  | c :: cs => startsW needle (c :: cs) || containsSub needle cs

/-- Index of the first occurrence of `needle` in `hay`; models `str.find` /
the start of the leftmost `re.search` match of a literal. -/
def idxOf (needle : List Char) : List Char → Option Nat
  | [] => if startsW needle [] then some 0 else none
  | c :: cs => if startsW needle (c :: cs) then some 0 else (idxOf needle cs).map (· + 1)

/-- The character set matched by Python's `\s` and stripped by `str.strip()`. -/
def isSpacePy (c : Char) : Bool :=
  c == ' ' || c == '\t' || c == '\n' || c == '\r' || c == '\x0b' || c == '\x0c'

/-- Strip characters satisfying `p` from both ends; models `str.strip(chars)`. -/
def stripChars (p : Char → Bool) (s : List Char) : List Char :=
  ((s.dropWhile p).reverse.dropWhile p).reverse

/-- Models `str.strip()` (no argument: whitespace both ends). -/
def pyStrip (s : List Char) : List Char := stripChars isSpacePy s

/-- Split on `'\n'`; models `str.split("\n")` (`"".split("\n") == [""]`). -/
def splitNl : List Char → List (List Char)
  | [] => [[]]
  | c :: cs =>
    if c == '\n' then [] :: splitNl cs
    else
      match splitNl cs with
      | [] => [[c]]
      | l :: ls => (c :: l) :: ls

/-! ## Data model -/

/-- One labor-role row, as built at lines 50-56 and 63-77 of the source
(dict with keys role/count/duration_days/daily_rate/notes). -/
structure LaborRole where
  role : String
  count : Nat
  duration_days : Nat
  daily_rate : Nat
  notes : String
deriving DecidableEq

/-- One FAQ row (`question`, `answer`), as selected by the Snowflake query
`SELECT question, answer FROM chatbot_faq` (line 33). -/
structure FAQEntry where
  question : String
  answer : String
deriving DecidableEq

/-! ## `suggest_roles_from_project` (source lines 60-78) -/

/-- The role set returned by the `"offshore" and "drilling"` branch
(source lines 63-67). -/
def drillingRoles : List LaborRole :=
  [⟨"Drilling Engineer", 2, 45, 1200, ""⟩,
   ⟨"Rig Worker", 10, 45, 500, ""⟩,
   ⟨"Safety Officer", 1, 30, 800, ""⟩]

/-- The role set returned by the `"maintenance"` branch (source lines 68-72). -/
def maintenanceRoles : List LaborRole :=
  [⟨"Technician", 5, 20, 600, ""⟩,
   ⟨"Supervisor", 1, 20, 900, ""⟩]

/-- The role set returned by the `"production"` branch (source lines 73-77). -/
def productionRoles : List LaborRole :=
  [⟨"Production Engineer", 2, 30, 1000, ""⟩,
   ⟨"Operator", 3, 30, 700, ""⟩]

/-- Embeds `suggest_roles_from_project` (source lines 60-78): lowercase the
text, then test `"offshore" in text and "drilling" in text`, elif
`"maintenance" in text`, elif `"production" in text`, else `[]`. -/
def suggest_roles_from_project (text : String) : List LaborRole :=
  let t := lowerL text.data
  if containsSub "offshore".data t && containsSub "drilling".data t then
    drillingRoles
  else if containsSub "maintenance".data t then
    maintenanceRoles
  else if containsSub "production".data t then
    productionRoles
  else []

/-! ## `extract_roles_from_structured_blocks` (source lines 42-57)

The source compiles the *raw* string
`r"(?P<role>[A-Za-z ]+?)\\s*-\\s*Count:\\s*(?P<count>\\d+)\\s*-\\s*Duration:\\s*(?P<duration>\\d+)\\s*Days\\s*-\\s*Daily Rate:\\s*\\$(?P<rate>\\d+)"`
with `re.IGNORECASE`.  Because it is a raw string, every `\\` is an escaped
*literal backslash* atom, so each intended `\s*` is really the two atoms
`\\` `s*` (a backslash, then zero or more letters `s`), each intended `\d+`
is `\\` `d+`, and the intended `\$` is `\\` `$` (a backslash, then the
end-of-string anchor).  The embedding below transcribes that compiled pattern
atom for atom:
* every greedy `s*`/`d+` is followed by an atom that can never match
  `s`/`d` (a backslash, `-`, or a literal starting with another letter), so
  maximal munch without backtracking is exact;
* the lazy `[A-Za-z ]+?` is modelled by trying the shortest role first
  (`matchBlockAux`);
* `$` matches at the end of the text or just before a final `'\n'` and
  consumes nothing (`matchDollar`).
-/

/-- One character matched case-insensitively against the lowercase target `t`
(the pattern is compiled with `re.IGNORECASE`). -/
def eatCharCI (t : Char) : List Char → Option (List Char)
  | [] => none
  | c :: cs => if c.toLower == t then some cs else none

/-- A literal sequence of case-insensitive characters. -/
def eatLitCI : List Char → List Char → Option (List Char)
  | [], cs => some cs
  | t :: ts, cs => (eatCharCI t cs).bind (eatLitCI ts)

/-- Greedy `t*` over a single case-insensitive character. -/
def eatStarCI (t : Char) : List Char → List Char
  | [] => []
  | c :: cs => if c.toLower == t then eatStarCI t cs else c :: cs

/-- Greedy `t+` over a single case-insensitive character, returning the
consumed characters and the rest. -/
def eatPlusCI (t : Char) (cs : List Char) : Option (List Char × List Char) :=
  match cs with
  | [] => none
  | c :: cs' =>
    if c.toLower == t then
      some (c :: cs'.takeWhile (fun x => x.toLower == t),
            cs'.dropWhile (fun x => x.toLower == t))
    else none

/-- A numeric capture group of the compiled pattern, i.e. `(?P<x>\\d+)`:
a literal backslash followed by greedy `d+`; the capture includes the
backslash. -/
def eatGroupNum (cs : List Char) : Option (List Char × List Char) :=
  (eatCharCI '\\' cs).bind fun cs1 =>
  (eatPlusCI 'd' cs1).map fun pr => ('\\' :: pr.1, pr.2)

/-- Python's `$` (no `re.MULTILINE`): matches at the end of the text or just
before a final newline; consumes nothing. -/
def matchDollar (cs : List Char) : Bool := cs.isEmpty || cs == ['\n']

/-- Pattern segment `\\ s* - \\ s* <lit> \\ s* (?P<x>\\d+)`: the `- Count:`
and `- Duration:` parts of the compiled pattern, which are atom-for-atom
identical up to the literal.  Returns the capture and the rest. -/
def matchNumSegment (lit : List Char) (cs : List Char) : Option (List Char × List Char) :=
  (eatCharCI '\\' cs).bind fun s1 =>
  (eatCharCI '-' (eatStarCI 's' s1)).bind fun s3 =>
  (eatCharCI '\\' s3).bind fun s4 =>
  (eatLitCI lit (eatStarCI 's' s4)).bind fun s6 =>
  (eatCharCI '\\' s6).bind fun s7 =>
  eatGroupNum (eatStarCI 's' s7)

/-- Pattern segment `\\ s* Days \\ s* - \\ s* Daily Rate: \\ s* \\ $
(?P<rate>\\d+)`: the tail of the compiled pattern after the duration
capture. -/
def matchRateSegment (cs : List Char) : Option (List Char × List Char) :=
  (eatCharCI '\\' cs).bind fun s17 =>
  (eatLitCI "days".data (eatStarCI 's' s17)).bind fun s19 =>
  (eatCharCI '\\' s19).bind fun s20 =>
  (eatCharCI '-' (eatStarCI 's' s20)).bind fun s22 =>
  (eatCharCI '\\' s22).bind fun s23 =>
  (eatLitCI "daily rate:".data (eatStarCI 's' s23)).bind fun s25 =>
  (eatCharCI '\\' s25).bind fun s26 =>
  (eatCharCI '\\' (eatStarCI 's' s26)).bind fun s28 =>
  if matchDollar s28 then eatGroupNum s28 else none

/-- The compiled pattern after the role group, assembled from its segments:
`\\ s* - \\ s* Count: \\ s* (?P<count>\\d+) \\ s* - \\ s* Duration: \\ s*
(?P<duration>\\d+) \\ s* Days \\ s* - \\ s* Daily Rate: \\ s* \\ $
(?P<rate>\\d+)`.  Returns the three captures and the rest of the text. -/
def matchTail (cs : List Char) : Option ((List Char × List Char × List Char) × List Char) :=
  (matchNumSegment "count:".data cs).bind fun g2r =>
  (matchNumSegment "duration:".data g2r.2).bind fun g3r =>
  (matchRateSegment g3r.2).map fun g4r => ((g2r.1, g3r.1, g4r.1), g4r.2)

/-- The lazy role group `[A-Za-z ]+?`: matched characters are letters and
spaces; the shortest role whose tail completes wins. -/
def isRoleChar (c : Char) : Bool :=
  ('A' ≤ c && c ≤ 'Z') || ('a' ≤ c && c ≤ 'z') || c == ' '

/-- Try to match the whole pattern at the head of the text: grow the lazy role
group one character at a time, attempting the tail after each character.
Returns the four captures `(role, count, duration, rate)` and the rest. -/
def matchBlockAux (acc : List Char) :
    List Char → Option ((List Char × List Char × List Char × List Char) × List Char)
  | [] => none
  | c :: cs =>
    if isRoleChar c then
      match matchTail cs with
      | some (g, rest) => some ((acc ++ [c], g.1, g.2.1, g.2.2), rest)
      | none => matchBlockAux (acc ++ [c]) cs
    else none

/-- A match attempt of the whole pattern anchored at the head of `cs`. -/
def matchBlockAt (cs : List Char) :
    Option ((List Char × List Char × List Char × List Char) × List Char) :=
  matchBlockAux [] cs

/-- `re.findall` over the compiled pattern: scan left to right; on a match,
record the group tuple and continue after the match.  Fuelled by the text
length, which always suffices: a successful match consumes at least one
character (the role group is a `+`), so every recursive call strictly
shortens the list. -/
def findallAux : Nat → List Char → List (List Char × List Char × List Char × List Char)
  | 0, _ => []
  | _ + 1, [] => []
  | n + 1, c :: cs =>
    match matchBlockAt (c :: cs) with
    | some (g, rest) => g :: findallAux n rest
    | none => findallAux n cs

/-- `pattern.findall(text)` at source line 47. -/
def findallStructured (text : String) : List (List Char × List Char × List Char × List Char) :=
  findallAux text.data.length text.data

/-- Models Python `int()` applied to a captured group: succeeds only on a
nonempty all-digit string (the signs/whitespace `int` also accepts cannot
occur in these captures), otherwise `none` ≙ `ValueError`. -/
def pyInt? (s : List Char) : Option Nat :=
  if s ≠ [] ∧ s.all (fun c => '0' ≤ c && c ≤ '9') then
    some (s.foldl (fun n c => 10 * n + (c.toNat - '0'.toNat)) 0)
  else none

/-- Embeds `extract_roles_from_structured_blocks` (source lines 42-57):
`findall`, then one role dict per match with `int(count)`, `int(duration)`,
`int(rate)` and `role.strip()`; `none` models an uncaught `ValueError` from
`int()`. -/
def extract_roles_from_structured_blocks (text : String) : Option (List LaborRole) :=
  (findallStructured text).mapM fun g =>
    match pyInt? g.2.1, pyInt? g.2.2.1, pyInt? g.2.2.2 with
    | some c, some d, some r =>
        some { role := String.mk (pyStrip g.1), count := c,
               duration_days := d, daily_rate := r, notes := "" }
    | _, _, _ => none

/-! ## Role cost estimation (source lines 118-120 and 155)

`df_roles["total_cost"] = df_roles["count"] * df_roles["duration_days"] *
df_roles["daily_rate"]` is elementwise multiplication over the rows, and the
aggregate is `df_roles["total_cost"].sum()`.  Counts, durations and rates are
Python ints, so the arithmetic is exact. -/

/-- The derived per-row cost column. -/
def total_cost (r : LaborRole) : Nat := r.count * r.duration_days * r.daily_rate

/-- `estimate`: rows priced with their `total_cost` column, plus the aggregate
`df_roles["total_cost"].sum()`. -/
def estimate (roles : List LaborRole) : List (LaborRole × Nat) × Nat :=
  let priced := roles.map fun r => (r, total_cost r)
  (priced, (priced.map Prod.snd).sum)

/-! ## FAQ loading and requirement answering (source lines 21-40 and 88-94) -/

/-- Embeds `load_faq_from_snowflake` (source lines 21-40).  The Snowflake
connection/query is an external call, modelled as an `Except` parameter: on
success the fetched rows form the corpus; any exception is caught and an
empty corpus is returned (the `st.error` call is presentation only). -/
def load_faq_from_snowflake (fetch : Except String (List FAQEntry)) : List FAQEntry :=
  match fetch with
  | Except.ok rows => rows
  | Except.error _ => []

/-! ### `difflib` model

`answer_proposal_question` calls
`difflib.get_close_matches(req.lower(), questions.lower(), n=1, cutoff=0.4)`.
CPython's `SequenceMatcher.ratio()` (Ratcliff–Obershelp) is
`2*M/T` where `M` is the total size of the matching blocks and `T` the sum of
the two lengths.  `find_longest_match` returns, among the longest common
contiguous blocks, the one starting earliest in `a`, then earliest in `b`
(`isjunk=None`; `autojunk` only affects sequences of 200+ elements, far above
every string compared here, so it is not modelled).  Scores are modelled as
exact rationals; the cutoffs 0.4 and the boundary ratios considered here are
exactly representable, so the rational comparison agrees with CPython's float
comparison.  `get_close_matches` keeps a candidate iff its ratio clears the
cutoff (it first tests `real_quick_ratio`/`quick_ratio`, but both are upper
bounds on `ratio`, so the conjunction is equivalent to `ratio >= cutoff`),
and `heapq.nlargest(1, ...)` is stable: it returns the first-encountered
maximum. -/

/-- Length of the common run at the heads of two lists. -/
def runLen : List Char → List Char → Nat
  | a :: as, b :: bs => if a == b then runLen as bs + 1 else 0
  | _, _ => 0

/-- `SequenceMatcher.find_longest_match` over full ranges: `(i, j, k)` with
maximal block size `k`, ties broken by smallest `i`, then smallest `j`
(the fold keeps the first triple attaining the maximum). -/
def findLongestMatch (a b : List Char) : Nat × Nat × Nat :=
  (List.range (a.length + 1)).foldl
    (fun best i =>
      (List.range (b.length + 1)).foldl
        (fun best j =>
          let k := runLen (a.drop i) (b.drop j)
          if best.2.2 < k then (i, j, k) else best)
        best)
    (0, 0, 0)

/-- Total size `M` of the matching blocks: recursively take the longest match
and recurse on the pieces to its left and right.  Fuelled by the total
length, which always suffices: each recursive call is on strictly fewer
characters in total (the middle block has size ≥ 1). -/
def matchSumF : Nat → List Char → List Char → Nat
  | 0, _, _ => 0
  | fuel + 1, a, b =>
    let m := findLongestMatch a b
    if m.2.2 == 0 then 0
    else
      matchSumF fuel (a.take m.1) (b.take m.2.1) + m.2.2 +
        matchSumF fuel (a.drop (m.1 + m.2.2)) (b.drop (m.2.1 + m.2.2))

/-- `M` for `SequenceMatcher(None, a, b)`. -/
def matchSum (a b : List Char) : Nat := matchSumF (a.length + b.length) a b

/-- `SequenceMatcher.ratio()` as an exact fraction (numerator, positive
denominator): `2*M / T`, and `1/1` when both strings are empty (CPython's
`_calculate_ratio`).  The float score is modelled by this exact rational;
fractions are kept unnormalised and compared by cross-multiplication, which
agrees with the real-number (and, at the exactly-representable boundary
values considered here, the float) comparison. -/
def ratioPair (a b : List Char) : Nat × Nat :=
  if a.length + b.length = 0 then (1, 1)
  else (2 * matchSum a b, a.length + b.length)

/-- `x ≤ y` for fractions with positive denominators. -/
def fracLe (x y : Nat × Nat) : Bool := x.1 * y.2 ≤ y.1 * x.2

/-- `x < y` for fractions with positive denominators. -/
def fracLt (x y : Nat × Nat) : Bool := x.1 * y.2 < y.1 * x.2

/-- The value of a score fraction, for statements. -/
def fracVal (x : Nat × Nat) : ℚ := (x.1 : ℚ) / (x.2 : ℚ)

/-- `SequenceMatcher(None, a, b).ratio()` as a rational, for statements. -/
def ratioQ (a b : List Char) : ℚ := fracVal (ratioPair a b)

/-- `heapq.nlargest(1, result)` over `(score, x)` pairs: the
first-encountered pair with the maximal score (`nlargest` is stable). -/
def firstMax : List ((Nat × Nat) × String) → Option ((Nat × Nat) × String)
  | [] => none
  | p :: ps =>
    match firstMax ps with
    | none => some p
    | some q => if fracLt p.1 q.1 then some q else some p

/-- `difflib.get_close_matches(word, poss, n=1, cutoff)`: score every
possibility `x` as `SequenceMatcher(None, x, word).ratio()`, keep those with
ratio ≥ cutoff, and return the best one (first encountered on ties). -/
def get_close_match1 (word : String) (poss : List String) (cutoff : Nat × Nat) : Option String :=
  let scored := poss.filterMap fun x =>
    let r := ratioPair x.data word.data
    if fracLe cutoff r then some (r, x) else none
  (firstMax scored).map Prod.snd

/-- Lowercase a string; models `str.lower()` / pandas `.str.lower()`. -/
def lowerS (s : String) : String := String.mk (lowerL s.data)

/-- The fixed fallback answer (source line 94). -/
def fallbackAnswer : String :=
  "This requirement will be addressed in the final submission per project scope."

/-- Embeds `answer_proposal_question` (source lines 88-94): fuzzy-match the
lowered requirement against the lowered FAQ questions at cutoff 0.4; on a
match return the answer of the first FAQ row whose lowered question equals
the match (`.values[0]`; `none` would model the `IndexError` of an empty
selection, which cannot occur since the match comes from the corpus);
otherwise return the fixed fallback answer. -/
def answer_proposal_question (req : String) (faq : List FAQEntry) : Option String :=
  match get_close_match1 (lowerS req) (faq.map fun e => lowerS e.question) (2, 5) with
  | some m => (faq.find? fun e => lowerS e.question == m).map FAQEntry.answer
  | none => some fallbackAnswer

/-- Modelled from the spec: the keyword-resolution fuzzy stage (§4.1 stage 3)
is not present in `src/streamlit_app.py` (the only resolution code there is
`suggest_roles_from_project`, which uses substring tests only).  Per the
spec, the stage accepts the arg-max keyword iff its edit-distance similarity
score clears the 0.3 cutoff, inclusively. -/
def fuzzyStageAccepts (score : ℚ) : Prop := 3/10 ≤ score

/-! ## `extract_proposal_requirements` (source lines 80-86)

`re.search(r"Proposal Requirements:\s*(.*?)\s*(Submission Deadline:|Contact
for Clarifications:|$)", text, re.DOTALL | re.IGNORECASE)` — this raw string
is written correctly (single backslashes).  Translation of the regex:
* the leftmost match starts at the first (case-insensitive) occurrence of
  `"proposal requirements:"` — a match always completes there because the
  alternation ends in `$`;
* the first `\s*` is greedy and the group `(.*?)` is lazy (DOTALL: `.`
  crosses newlines), so group 1 ends at the earliest position from which
  optional whitespace followed by one of the two delimiter literals (or the
  end of the text) matches: i.e. the section runs to the earliest
  case-insensitive occurrence of a delimiter after the marker, or to the end;
* the two `\s*` atoms trim whitespace at the ends of group 1; the source then
  applies `.strip()` to group 1 anyway, so slicing from marker end to
  delimiter start and stripping gives exactly `match.group(1).strip()`.
The lines are then produced by
`[line.strip("-• ").strip() for line in raw.split("\n") if line.strip()]`. -/

/-- Start index of the earliest occurrence of either delimiter in (lowered)
`cs`, or `cs.length` if neither occurs. -/
def delimIdx (cs : List Char) : Nat :=
  match idxOf "submission deadline:".data cs, idxOf "contact for clarifications:".data cs with
  | some a, some b => min a b
  | some a, none => a
  | none, some b => b
  | none, none => cs.length

/-- `line.strip("-• ")`: strips `-`, `•` and spaces from both ends. -/
def stripBulletChars (s : List Char) : List Char :=
  stripChars (fun c => c == '-' || c == '•' || c == ' ') s

/-- The list comprehension at source line 84: keep lines that are not
whitespace-only, and clean each with `strip("-• ")` then `strip()`. -/
def cleanReqLines (raw : List Char) : List String :=
  ((splitNl raw).filter fun l => !(pyStrip l).isEmpty).map
    fun l => String.mk (pyStrip (stripBulletChars l))

/-- Embeds `extract_proposal_requirements` (source lines 80-86). -/
def extract_proposal_requirements (text : String) : List String :=
  let low := lowerL text.data
  match idxOf "proposal requirements:".data low with
  | none => []
  | some i =>
    let p := i + "proposal requirements:".data.length
    let raw := pyStrip ((text.data.drop p).take (delimIdx (low.drop p)))
    cleanReqLines raw

/-! ## Project-field extraction (claim C6)

Only requirement extraction exists in `src/streamlit_app.py`; there is no
code that extracts the labeled project fields (title, client, scope, ...).
The field extractor below is therefore modelled from the spec. -/

/-- The optional-valued project record of spec §3 (keys used by claim C6). -/
structure ProjectInfoFields where
  title : Option String
  client : Option String
  location : Option String
  estimatedDuration : Option String
  startDate : Option String
  scope : Option String
deriving DecidableEq

/-- The fixed field labels of spec §3, plus the requirements marker, all
section heads at which a field's captured text ends. -/
def sectionHeads : List (List Char) :=
  ["project title:".data, "client:".data, "location:".data,
   "estimated duration:".data, "start date:".data, "scope of work:".data,
   "proposal requirements:".data]

/-- Earliest occurrence of any section head in (lowered) `cs`, or
`cs.length`. -/
def headIdx (cs : List Char) : Nat :=
  sectionHeads.foldr
    (fun h acc => match idxOf h cs with | some a => min a acc | none => acc)
    cs.length

/-- Modelled from the spec: field extraction (§4.3) — "for each fixed field
label, capture text following `<Label>:` up to the next recognized label or
end of text", the scope field spanning lines until the next section header
(a label, the `Proposal Requirements:` marker, or end of text).  Matching is
case-insensitive, as everywhere else in this program's text handling;
captured values are stripped of surrounding whitespace. -/
def extractField (text : String) (label : String) : Option String :=
  let low := lowerL text.data
  match idxOf (lowerL label.data) low with
  | none => none
  | some i =>
    let p := i + label.data.length
    some (String.mk (pyStrip ((text.data.drop p).take (headIdx (low.drop p)))))

/-- Modelled from the spec: `extract` over the fixed labels of §3. -/
def extract_fields (text : String) : ProjectInfoFields :=
  { title := extractField text "Project Title:"
    client := extractField text "Client:"
    location := extractField text "Location:"
    estimatedDuration := extractField text "Estimated Duration:"
    startDate := extractField text "Start Date:"
    scope := extractField text "Scope of Work:" }

/-! ## Proposal-summary control flow (source lines 107-161)

The summary path first runs inline extraction, then — only when that is
empty — falls back to `suggest_roles_from_project` (this fallback block
appears twice, lines 109-112 and 114-116; the second run is a no-op because
`suggest_roles_from_project` is pure).  `proposal_reqs` is assigned *only*
inside the first fallback block (line 112); the reference `if proposal_reqs:`
at line 157 therefore reads an unbound name — a `NameError` — whenever the
inline extraction produced rows.  The flow is modelled parametrically over
the two role sources and the extracted requirement list; an unbound
`proposal_reqs` is `none`. -/

/-- Outcome of the "Generate Proposal Summary" button handler. -/
inductive SummaryOutcome where
  | noSummary
  | nameError
  | doc (roles : List LaborRole) (responses : List (String × Option String))
deriving DecidableEq

/-- The role set the summary path settles on (lines 108-116): the structured
rows if any, else the suggested rows. -/
def select_roles (structured suggested : List LaborRole) : List LaborRole :=
  let roles1 := structured
  let roles2 := if roles1.isEmpty then suggested else roles1
  if roles2.isEmpty then suggested else roles2

/-- Embeds the summary control flow (lines 107-161): `structured` is the
result of `extract_roles_from_structured_blocks`, `suggested` that of
`suggest_roles_from_project`, `reqs` that of `extract_proposal_requirements`,
`faq` the loaded corpus. -/
def generate_summary (structured suggested : List LaborRole) (reqs : List String)
    (faq : List FAQEntry) : SummaryOutcome :=
  let roles1 := structured
  let st1 : List LaborRole × Option (List String) :=
    if roles1.isEmpty then (suggested, some reqs) else (roles1, none)
  let roles2 := if st1.1.isEmpty then suggested else st1.1
  if roles2.isEmpty then SummaryOutcome.noSummary
  else
    match st1.2 with
    | none => SummaryOutcome.nameError
    | some rs =>
        SummaryOutcome.doc roles2
          (if rs.isEmpty then []
           else rs.map fun r => (r, answer_proposal_question r faq))

/-! ## Claim C7: spec-side requirement-extraction definitions -/

/-- The requirement section: the text between the `Proposal Requirements:`
marker and the first following delimiter occurrence (or end of text), with
surrounding whitespace stripped; `none` when there is no marker. -/
def requirementSection (text : String) : Option (List Char) :=
  let low := lowerL text.data
  (idxOf "proposal requirements:".data low).map fun i =>
    let p := i + "proposal requirements:".data.length
    pyStrip ((text.data.drop p).take (delimIdx (low.drop p)))

/-- Requirement extraction exactly as claim C7 words it, with *leading*
bullet markers stripped from each line (and surrounding whitespace stripped,
whitespace-only lines dropped, order preserved). -/
def extract_requirements_claimed (text : String) : List String :=
  match requirementSection text with
  | none => []
  | some sec =>
      (splitNl sec).filterMap fun l =>
        if (pyStrip l).isEmpty then none
        else some (String.mk (pyStrip (l.dropWhile fun c => c == '-' || c == '•' || c == ' ')))

/-- Requirement extraction as claim C7 amended: bullet markers (`-`, `•`,
spaces) are stripped from *both* ends of each line, then surrounding
whitespace; whitespace-only lines dropped, order preserved. -/
def extract_requirements_amended (text : String) : List String :=
  match requirementSection text with
  | none => []
  | some sec =>
      (splitNl sec).filterMap fun l =>
        if (pyStrip l).isEmpty then none
        else some (String.mk (pyStrip (stripBulletChars l)))

/-- The document text of claim C6. -/
def c6text : String :=
  "Project Title: Ocean Drill\nClient: Acme Corp\nScope of Work: Full seabed survey\nProposal Requirements:\n- Safety plan\n- Timeline"

/-! # Theorems -/

/-! ## Helper lemmas -/

lemma filter_map_eq_filterMap {α β : Type} (p : α → Bool) (f : α → β) (l : List α) :
    (l.filter p).map f = l.filterMap fun x => if p x then some (f x) else none := by
  induction l with
  | nil => rfl
  | cons a l ih =>
    cases h : p a <;> simp [List.filter_cons, List.filterMap_cons, h, ih]

lemma ite_not_bool {α : Type} (b : Bool) (x y : α) :
    (if !b then x else y) = if b then y else x := by
  cases b <;> rfl

lemma ratioPair_den_pos (a b : List Char) : 0 < (ratioPair a b).2 := by
  unfold ratioPair
  split
  · exact Nat.one_pos
  · next h => exact Nat.pos_of_ne_zero h

lemma fracLe_iff (x y : Nat × Nat) (hx : 0 < x.2) (hy : 0 < y.2) :
    fracLe x y = true ↔ fracVal x ≤ fracVal y := by
  simp only [fracLe, decide_eq_true_eq, fracVal]
  rw [div_le_div_iff₀ (by exact_mod_cast hx) (by exact_mod_cast hy)]
  constructor <;> intro h <;> exact_mod_cast h

lemma firstMax_ne_none (l : List ((Nat × Nat) × String)) (h : l ≠ []) :
    firstMax l ≠ none := by
  cases l with
  | nil => exact absurd rfl h
  | cons p ps =>
    simp only [firstMax]
    cases firstMax ps with
    | none => simp
    | some q =>
      cases hfl : fracLt p.1 q.1 <;> simp [hfl]

/-! ## Claim theorems -/

/-- Claim C1: the spec (and the function's evident intent) say the input
`"Driller - Count: 3 - Duration: 10 Days - Daily Rate: $500"` yields exactly
one role row (Driller, 3, 10, 500).  The code's regex, a raw string with
doubled backslashes, can never match this backslash-free text, so the
extraction returns no rows at all — evaluated here at the failing input. -/
theorem C1_structured_extraction_returns_nothing :
    extract_roles_from_structured_blocks
        "Driller - Count: 3 - Duration: 10 Days - Daily Rate: $500" = some [] ∧
    (some [] : Option (List LaborRole)) ≠
      some [{ role := "Driller", count := 3, duration_days := 10,
              daily_rate := 500, notes := "" }] :=
  ⟨by decide, by decide⟩

/-- Claim C2 (counterexample): the claim says any text containing
`"drilling"` (case-insensitively) must resolve to the drilling category, but
the code's drilling branch also requires `"offshore"`: this text contains
`"drilling"` yet resolves to no roles at all. -/
theorem C2_counterexample :
    suggest_roles_from_project "Planning a drilling project" = [] ∧
    ([] : List LaborRole) ≠ drillingRoles :=
  ⟨by decide, by decide⟩

/-- Claim C2 as amended: a text resolves to the drilling category iff it
contains *both* `"offshore"` and `"drilling"` (case-insensitively); texts
with `"drilling"` alone fall through to the later keyword checks. -/
theorem C2_amended_substring (text : String)
    (h1 : containsSub "offshore".data (lowerL text.data) = true)
    (h2 : containsSub "drilling".data (lowerL text.data) = true) :
    suggest_roles_from_project text = drillingRoles := by
  simp [suggest_roles_from_project, h1, h2]

/-- Witness for the amended claim C2 at a concrete input. -/
theorem C2_amended_witness :
    suggest_roles_from_project "Offshore drilling campaign" = drillingRoles :=
  C2_amended_substring "Offshore drilling campaign" (by decide) (by decide)

/-- Claim C3: if inline structured extraction yields at least one row, the
summary path uses exactly those rows — independent of (and never merged
with) the keyword-suggested rows — and the suggested rows are used only when
the structured set is empty. -/
theorem C3_structured_rows_take_priority (structured suggested : List LaborRole) :
    (structured ≠ [] → select_roles structured suggested = structured) ∧
    (structured = [] → select_roles structured suggested = suggested) := by
  constructor
  · intro h
    cases structured with
    | nil => exact absurd rfl h
    | cons a as => rfl
  · intro h
    subst h
    cases suggested with
    | nil => rfl
    | cons a as => rfl

/-- Witness for claim C3 at concrete role sets. -/
theorem C3_witness :
    select_roles
        [{ role := "Driller", count := 3, duration_days := 10, daily_rate := 500, notes := "" }]
        maintenanceRoles =
      [{ role := "Driller", count := 3, duration_days := 10, daily_rate := 500, notes := "" }] ∧
    select_roles [] maintenanceRoles = maintenanceRoles :=
  ⟨(C3_structured_rows_take_priority _ _).1 (by decide),
   (C3_structured_rows_take_priority _ _).2 rfl⟩

/-- Claim C4: cost estimation is a pure function of the rows: every priced
row carries `count * duration_days * daily_rate` exactly, the aggregate is
the sum of the row totals, and the empty input yields the empty priced set
with aggregate 0. -/
theorem C4_estimate_pure (roles : List LaborRole) :
    (∀ p ∈ (estimate roles).1, p.2 = p.1.count * p.1.duration_days * p.1.daily_rate) ∧
    (estimate roles).2 = (roles.map total_cost).sum ∧
    estimate ([] : List LaborRole) = ([], 0) := by
  refine ⟨?_, ?_, rfl⟩
  · intro p hp
    simp only [estimate, List.mem_map] at hp
    obtain ⟨r, -, rfl⟩ := hp
    rfl
  · show ((roles.map fun r => (r, total_cost r)).map Prod.snd).sum =
      (roles.map total_cost).sum
    rw [List.map_map]
    rfl

/-- Witness for claim C4 at a concrete priced row. -/
theorem C4_witness :
    (({ role := "Driller", count := 3, duration_days := 10, daily_rate := 500,
        notes := "" } : LaborRole), 15000).2 =
      ({ role := "Driller", count := 3, duration_days := 10, daily_rate := 500,
         notes := "" } : LaborRole).count *
        ({ role := "Driller", count := 3, duration_days := 10, daily_rate := 500,
           notes := "" } : LaborRole).duration_days *
        ({ role := "Driller", count := 3, duration_days := 10, daily_rate := 500,
           notes := "" } : LaborRole).daily_rate :=
  (C4_estimate_pure
      [{ role := "Driller", count := 3, duration_days := 10, daily_rate := 500,
         notes := "" }]).1 _ (by decide)

/-- Claim C5: an unreachable FAQ store yields an empty corpus instead of a
fatal error, and with an empty corpus every requirement of any non-empty
requirement list receives the fixed fallback answer, without raising. -/
theorem C5_empty_corpus_fallback :
    (∀ e : String, load_faq_from_snowflake (Except.error e) = []) ∧
    ∀ reqs : List String, reqs ≠ [] →
      reqs.map (fun r => answer_proposal_question r []) =
        reqs.map fun _ => some fallbackAnswer := by
  refine ⟨fun e => rfl, fun reqs _ => ?_⟩
  have h : (fun r => answer_proposal_question r []) =
      fun _ : String => some fallbackAnswer :=
    funext fun r => rfl
  rw [h]

/-- Witness for claim C5 at a concrete fetch failure and requirement list. -/
theorem C5_witness :
    load_faq_from_snowflake (Except.error "connection refused") = [] ∧
    ["Safety plan"].map (fun r => answer_proposal_question r []) =
      ["Safety plan"].map fun _ => some fallbackAnswer :=
  ⟨C5_empty_corpus_fallback.1 "connection refused",
   C5_empty_corpus_fallback.2 ["Safety plan"] (by decide)⟩

set_option maxRecDepth 100000 in
/-- Claim C6: on the scenario document, field extraction (modelled from the
spec; no field-extraction code exists in the source) yields
title="Ocean Drill", client="Acme Corp", scope="Full seabed survey", and the
source's requirement extractor yields ["Safety plan", "Timeline"]. -/
theorem C6_scenario :
    (extract_fields c6text).title = some "Ocean Drill" ∧
    (extract_fields c6text).client = some "Acme Corp" ∧
    (extract_fields c6text).scope = some "Full seabed survey" ∧
    extract_proposal_requirements c6text = ["Safety plan", "Timeline"] := by
  refine ⟨by decide, by decide, by decide, by decide⟩

/-- Claim C7 (counterexample): the claim strips only *leading* bullet
markers, but the code's `strip("-• ")` strips both ends: on a line ending in
`-` the two disagree. -/
theorem C7_counterexample :
    extract_proposal_requirements "Proposal Requirements:\n- Safety plan-" =
        ["Safety plan"] ∧
    extract_requirements_claimed "Proposal Requirements:\n- Safety plan-" =
        ["Safety plan-"] ∧
    extract_proposal_requirements "Proposal Requirements:\n- Safety plan-" ≠
      extract_requirements_claimed "Proposal Requirements:\n- Safety plan-" :=
  ⟨by decide, by decide, by decide⟩

/-- Claim C7 as amended: for every text, requirement extraction returns
exactly the lines between the `Proposal Requirements:` marker and the first
following delimiter (or end of text), split on line breaks, bullet markers
and surrounding whitespace stripped from *both* ends of each line,
whitespace-only lines dropped, order preserved; no marker yields `[]`. -/
theorem C7_amended_characterization (text : String) :
    extract_proposal_requirements text = extract_requirements_amended text := by
  unfold extract_proposal_requirements extract_requirements_amended
      requirementSection cleanReqLines
  cases h : idxOf "proposal requirements:".data (lowerL text.data) with
  | none => simp [h]
  | some i =>
    simp only [h, Option.map_some']
    rw [filter_map_eq_filterMap]
    simp only [ite_not_bool]

/-- Claim C8: a score exactly equal to its cutoff is accepted in both
thresholded stages — the spec-modelled 0.3 fuzzy keyword stage, and the
requirement-matching stage, where any candidate whose ratio reaches the
cutoff is matched (inclusive ≥); in particular a requirement whose best FAQ
similarity is exactly 2/5 = 0.4 receives the stored answer, not the
fallback. -/
theorem C8_cutoffs_inclusive :
    fuzzyStageAccepts (3/10) ∧
    ratioQ "bcd".data "ab".data = 2/5 ∧
    answer_proposal_question "ab" [⟨"bcd", "Stored answer"⟩] = some "Stored answer" ∧
    ∀ (w x : String) (poss : List String) (c : Nat × Nat), 0 < c.2 → x ∈ poss →
      fracVal c ≤ ratioQ x.data w.data → get_close_match1 w poss c ≠ none := by
  refine ⟨le_refl _, ?_, by decide, ?_⟩
  · have h : ratioPair "bcd".data "ab".data = (2, 5) := by decide
    rw [ratioQ, h, fracVal]
    norm_num
  · intro w x poss c hc hmem hle
    have hb : fracLe c (ratioPair x.data w.data) = true :=
      (fracLe_iff _ _ hc (ratioPair_den_pos _ _)).mpr hle
    simp only [get_close_match1]
    intro heq
    rw [Option.map_eq_none'] at heq
    refine firstMax_ne_none _ ?_ heq
    refine List.ne_nil_of_mem (a := (ratioPair x.data w.data, x)) ?_
    refine List.mem_filterMap.mpr ⟨x, hmem, ?_⟩
    rw [if_pos hb]

/-- Witness for claim C8 at the exact-boundary input. -/
theorem C8_witness : get_close_match1 "ab" ["bcd"] (2, 5) ≠ none := by
  have hr : ratioQ "bcd".data "ab".data = 2/5 := C8_cutoffs_inclusive.2.1
  refine C8_cutoffs_inclusive.2.2.2 "ab" "bcd" ["bcd"] (2, 5) (by norm_num)
      (by decide) ?_
  rw [hr, fracVal]
  norm_num

/-- Claim C9: the scenario text resolves, by substring containment, to the
drilling category: `suggest_roles_from_project` returns the drilling role
set. -/
theorem C9_offshore_drilling_scenario :
    suggest_roles_from_project "We need drilling support for offshore platform" =
      drillingRoles := by decide

/-- Claim C10: `proposal_reqs` is assigned only in the branch where inline
extraction returned zero rows, so whenever the structured extraction yields
at least one row the summary path reads an unbound name (`NameError`), and a
summary document (with requirement responses) is reachable only when the
structured set is empty. -/
theorem C10_unbound_proposal_reqs (structured suggested : List LaborRole)
    (reqs : List String) (faq : List FAQEntry) :
    (structured ≠ [] →
      generate_summary structured suggested reqs faq = SummaryOutcome.nameError) ∧
    (∀ roles responses,
      generate_summary structured suggested reqs faq =
          SummaryOutcome.doc roles responses →
      structured = []) := by
  constructor
  · intro h
    cases structured with
    | nil => exact absurd rfl h
    | cons a as => rfl
  · intro roles responses hdoc
    cases structured with
    | nil => rfl
    | cons a as => exact SummaryOutcome.noConfusion hdoc

/-- Witness for claim C10 at a concrete structured role row. -/
theorem C10_witness :
    generate_summary
        [{ role := "Driller", count := 3, duration_days := 10, daily_rate := 500,
           notes := "" }] drillingRoles ["Safety plan"] [] =
      SummaryOutcome.nameError :=
  (C10_unbound_proposal_reqs _ _ _ _).1 (by decide)
